import Mathlib

/-!
Shallow embedding of `src/exam_pipeline.py` (Automated Ambiguity Estimator and
Paraphraser) together with proofs about its remediation loop, semantic
equivalence gate, clarity scorer and question extractor.

External capabilities (the Groq chat completions, the sentence-transformer
bi-encoder, the cross-encoder, and the JSON decoding done by
`_safe_json_load`) are modelled as oracle functions collected in a
`Capabilities` record; everything else is translated directly from the
source.  Machine floats of the source are modelled as exact rationals,
Python `int` as `Int`.
-/

namespace ExamPipeline

/-- JSON values, as produced by `_safe_json_load` (a Python object decoded
from JSON: `None`, booleans, numbers, strings, lists, dicts with string
keys in insertion order). -/
inductive Json where
  | null : Json
  | bool (b : Bool) : Json
  | num (q : ℚ) : Json
  | str (s : String) : Json
  | arr (xs : List Json) : Json
  | obj (kvs : List (String × Json)) : Json

/-- Python `isinstance(v, str)`. -/
def Json.isStr : Json → Bool
  | .str _ => true
  | _ => false

/-- Python `\s` as well as the character class used by `str.strip()`:
space, tab, newline, carriage return, vertical tab, form feed. -/
def pyIsSpace (c : Char) : Bool :=
  c == ' ' || c == '\t' || c == '\n' || c == '\r' || c == '\x0b' || c == '\x0c'

/-- Python `str.strip()` on a character list. -/
def pyStrip (l : List Char) : List Char :=
  ((l.dropWhile pyIsSpace).reverse.dropWhile pyIsSpace).reverse

/-- Python `str.strip()`. -/
def pyStripStr (s : String) : String :=
  String.mk (pyStrip s.data)

/-- Python `str.lower()` (ASCII case folding; the source only compares the
two lowered strings for equality). -/
def pyLower (s : String) : String :=
  String.mk (s.data.map Char.toLower)

/-- `s.strip().lower()` as used on both sides of the exact-match check in
`ExamPipeline.validate` (line 185). -/
def pyNorm (s : String) : String :=
  pyLower (pyStripStr s)

/-- Python `int(...)` applied to a non-empty string of decimal digits. -/
def digitsVal (ds : List Char) : ℕ :=
  ds.foldl (fun n c => 10 * n + (c.toNat - 48)) 0

/-- The literal `Score:` scanned for by `re.search(r"Score:\s*(\d+)", txt)`. -/
def scorePat : List Char := "Score:".toList

/-- `re.search(r"Score:\s*(\d+)", txt)` over a character list: scan left to
right for an occurrence of `Score:` that is followed, after optional
whitespace, by at least one digit; the capture is the maximal digit run at
the first such occurrence. -/
def scoreSearch : List Char → Option ℕ
  | [] => none
  | c :: cs =>
    if scorePat.isPrefixOf (c :: cs) then
      let ds := (((c :: cs).drop 6).dropWhile pyIsSpace).takeWhile Char.isDigit
      if ds.isEmpty then scoreSearch cs else some (digitsVal ds)
    else scoreSearch cs

/-- The literal `Justification:` scanned for by
`re.search(r"Justification:\s*(.+)", txt)`. -/
def justPat : List Char := "Justification:".toList

/-- Matching `\s*(.+)` against the tail `t` that follows `Justification:`,
with the greedy-then-backtrack semantics of Python `re`: `\s*` first takes
the maximal whitespace prefix; if a character remains the capture is the
maximal newline-free run from there; otherwise (`t` entirely whitespace)
`\s*` backtracks to the last position holding a non-newline character, the
capture being that single character, and the match fails only when every
character of `t` is a newline (or `t` is empty). -/
def matchWsDotPlus (t : List Char) : Option (List Char) :=
  let r := t.dropWhile pyIsSpace
  if r.isEmpty then
    match t.reverse.dropWhile (fun c => c == '\n') with
    | [] => none
    | c :: _ => some [c]
  else
    some (r.takeWhile (fun c => c != '\n'))

/-- `re.search(r"Justification:\s*(.+)", txt)` followed by `.strip()` of the
capture (line 142): scan for the first occurrence of `Justification:` at
which `\s*(.+)` matches the remainder. -/
def justSearch : List Char → Option (List Char)
  | [] => none
  | c :: cs =>
    if justPat.isPrefixOf (c :: cs) then
      match matchWsDotPlus ((c :: cs).drop 14) with
      | some grp => some (pyStrip grp)
      | none => justSearch cs
    else justSearch cs

/-- The parsed `Score:` field of a scorer response (line 141), as a Python
`int`. -/
def parseScoreField (txt : String) : Option ℤ :=
  (scoreSearch txt.data).map Int.ofNat

/-- The parsed and stripped `Justification:` field of a scorer response
(line 142). -/
def parseJustField (txt : String) : Option String :=
  (justSearch txt.data).map (fun l => String.mk l)

/-- `EXTRACT_MODEL` (line 14). -/
def EXTRACT_MODEL : String := "llama-3.1-8b-instant"

/-- `SCORE_MODEL` (line 15). -/
def SCORE_MODEL : String := "llama-3.3-70b-versatile"

/-- `REPHRASE_MODEL` (line 16). -/
def REPHRASE_MODEL : String := "llama-3.1-8b-instant"

/-- The external capabilities of the pipeline: `complete model prompt
temperature` is the text of the chat completion, `cosSim` the bi-encoder
cosine similarity, `crossScore` the cross-encoder relevance score, and
`safeJsonLoad` the value decoded by `_safe_json_load` (regex fence
stripping plus `json.loads`, returning `none` exactly when that helper
returns `None`) from a completion text. -/
structure Capabilities where
  complete : String → String → ℚ → String
  cosSim : String → String → ℚ
  crossScore : String → String → ℚ
  safeJsonLoad : String → Option Json

/-- The extraction prompt f-string of `get_questions` (lines 89-97). -/
def extractPrompt (text : String) : String :=
  "\nExtract ALL exam questions from the text below.\nReturn JSON in ONE of these forms:\n1) [\x7b\"id\": 1, \"question\": \"...\"\x7d]\n2) \x7b \"questions\": [\x7b\"id\": 1, \"question\": \"...\"\x7d] \x7d\n\nTEXT:\n" ++ text ++ "\n"

/-- The dict key `questions` (line 112). -/
def questionsKey : String := "questions"

/-- The dict key `exam_questions` (line 112). -/
def examQuestionsKey : String := "exam_questions"

/-- `key in raw and isinstance(raw[key], list)` followed by `raw[key]`
(lines 112-114), on a dict modelled as a key-value list. -/
def getListVal (kvs : List (String × Json)) (key : String) : Option (List Json) :=
  match kvs.find? (fun kv => kv.1 == key) with
  | some (_, Json.arr xs) => some xs
  | _ => none

/-- The shape dispatch of `get_questions` on the value decoded from the
extraction response (lines 104-119): `None` gives `[]`; a bare list is
returned as is; for a dict, a list under `questions` then under
`exam_questions` is returned, else if every value is a string the dict is
reinterpreted as `id`/`question` records; anything else gives `[]`. -/
def questionsFromJson : Option Json → List Json
  | none => []
  | some (Json.arr xs) => xs
  | some (Json.obj kvs) =>
    match getListVal kvs questionsKey with
    | some xs => xs
    | none =>
      match getListVal kvs examQuestionsKey with
      | some xs => xs
      | none =>
        if kvs.all (fun kv => kv.2.isStr) then
          kvs.map (fun kv => Json.obj [("id", Json.str kv.1), ("question", kv.2)])
        else []
  | some _ => []

/-- `get_questions` (lines 85-119).  The boolean of the result records
whether a generative-text request was issued: the source returns `[]`
without a request only when `not text`, i.e. when `text` is the empty
string. -/
def get_questions (cap : Capabilities) (text : String) : Bool × List Json :=
  if text = "" then (false, [])
  else
    (true, questionsFromJson (cap.safeJsonLoad (cap.complete EXTRACT_MODEL (extractPrompt text) 0)))

/-- The scoring prompt f-string of `score_question` (lines 125-132). -/
def scorePrompt (question : String) : String :=
  "Rate this exam question for how likely it is to waste students\x27 time due to confusing wording,\n0 = perfectly clear, 100 = extremely confusing. DON\x27T CONSIDER DOUBLE NEGATIVES.\nGive it in this format:\n1. Score:\n2. Justification: (1 line)\n\nQuestion: " ++ question ++ "\n"

/-- The scorer completion text for a question (lines 133-139, temperature
0.2, written as an exact rational so that it evaluates). -/
def scoreResponse (cap : Capabilities) (question : String) : String :=
  cap.complete SCORE_MODEL (scorePrompt question) (mkRat 2 10)

/-- `score_question` (lines 124-145): parse the `Score:` and
`Justification:` fields of the response; if either regex search fails the
`except` branch returns the degraded assessment
`(0, "Could not parse score.")`. -/
def score_question (cap : Capabilities) (question : String) : ℤ × String :=
  let txt := scoreResponse cap question
  match parseScoreField txt, parseJustField txt with
  | some s, some j => (s, j)
  | _, _ => (0, "Could not parse score.")

/-- `dynamic_temp = 0.2 + (attempt * 0.1)` (line 151), the two decimal
literals written as exact rationals. -/
def dynamicTemp (attempt : ℕ) : ℚ :=
  mkRat 2 10 + (attempt : ℚ) * mkRat 1 10

/-- `retry_instruction` (lines 153-158): empty on the first attempt. -/
def retryInstructionFor (attempt : ℕ) : String :=
  if attempt > 0 then
    ("Your previous attempt was rejected for not matching the original meaning. Try a different structure while staying strictly faithful to the core intent.")
  else ("")

/-- The rephrasing prompt f-string (lines 160-165). -/
def rephrasePrompt (attempt : ℕ) (question justification : String) : String :=
  "Rephrase the question to be clearer (score below 20).\n" ++ retryInstructionFor attempt ++ "\nOriginal: " ++ question ++ "\nJustification: " ++ justification ++ "\nOutput ONLY the rephrased question.\n"

/-- `rephrase` (lines 150-171): one completion at temperature
`dynamicTemp attempt`, stripped of surrounding whitespace.  The `score`
argument is accepted but, as in the source, not used in the prompt. -/
def rephrase (cap : Capabilities) (question : String) (score : ℤ) (justification : String) (attempt : ℕ) : String :=
  let temp := dynamicTemp attempt
  pyStripStr (cap.complete REPHRASE_MODEL (rephrasePrompt attempt question justification) temp)

/-- `validate` (lines 176-201): reject when the stripped, lowered texts
coincide; reject when the bi-encoder cosine similarity is below 0.8;
reject when the cross-encoder score is below 0.75; otherwise accept.
The lazy initialization of the two singleton models (lines 179-183) has no
effect on the decision and is absorbed into the oracles. -/
def validate (cap : Capabilities) (original candidate : String) : Bool :=
  if pyNorm original = pyNorm candidate then false
  else if cap.cosSim original candidate < mkRat 8 10 then false
  else if cap.crossScore original candidate < mkRat 75 100 then false
  else true

/-- A question record as consumed by the loop of `run` (lines 223-226):
the value under `id` when the key is present, and the value under
`question` when present (the claims under study concern records whose
`question` value, when present, is a string). -/
structure QuestionRecord where
  id : Option Json
  question : Option String

/-- The record appended to `results` (lines 254-261), with the source dict
keys `ID`, `Original Question`, `Score`, `Justification`, `Final Version`
and `Status` as fields. -/
structure RemediationResult where
  ID : Json
  originalQuestion : String
  score : ℤ
  justification : String
  finalVersion : String
  status : String

/-- `MAX_ATTEMPTS = 6` (line 221). -/
def MAX_ATTEMPTS : ℕ := 6

/-- The attempt loop `for attempt in range(MAX_ATTEMPTS)` (lines 233-249),
instrumented with the number of rephrase attempts (equivalently, Gate
invocations) made: starting at `attempt` with `remaining` iterations left,
return the first candidate accepted by `validate` (if any) together with
that count. -/
def attemptSearch (cap : Capabilities) (original : String) (score : ℤ) (justification : String) : ℕ → ℕ → Option String × ℕ
  | _, 0 => (none, 0)
  | attempt, remaining + 1 =>
    let candidate := rephrase cap original score justification attempt
    if validate cap original candidate then (some candidate, 1)
    else
      let r := attemptSearch cap original score justification (attempt + 1) remaining
      (r.1, r.2 + 1)

/-- The body of the `for q in questions` loop for a non-skipped question
(lines 228-261): score it; when the score exceeds 20 run the attempt loop,
a passing candidate giving status `Rephrased` and exhaustion giving
`Manual Review Required`; otherwise keep `Original Kept`.  Paired with the
number of rephrase attempts made. -/
def resultOf (cap : Capabilities) (q : QuestionRecord) : RemediationResult × ℕ :=
  let original := q.question.getD ("")
  let sj := score_question cap original
  let base : RemediationResult :=
    { ID := q.id.getD (Json.str ("?")), originalQuestion := original, score := sj.1,
      justification := sj.2, finalVersion := original, status := "Original Kept" }
  if 20 < sj.1 then
    match attemptSearch cap original sj.1 sj.2 0 MAX_ATTEMPTS with
    | (some candidate, n) => ({ base with finalVersion := candidate, status := "Rephrased" }, n)
    | (none, n) => ({ base with status := "Manual Review Required" }, n)
  else (base, 0)

/-- One iteration of the `for q in questions` loop (lines 223-261):
`original = q.get("question", ""); if not original: continue` skips the
record, otherwise exactly one result is produced. -/
def processQuestion (cap : Capabilities) (q : QuestionRecord) : Option (RemediationResult × ℕ) :=
  if q.question.getD ("") = "" then none
  else some (resultOf cap q)

/-- The remediation loop of `run` over the extracted questions
(lines 223-263), producing the ordered `results` list.  The upstream size
check and PDF text extraction (lines 206-219) are external input
acquisition and are not part of the loop. -/
def runLoop (cap : Capabilities) (questions : List QuestionRecord) : List RemediationResult :=
  questions.filterMap (fun q => (processQuestion cap q).map Prod.fst)

/-! Concrete capability instances and question records used to exercise the
theorems below on closed inputs. -/

/-- A well-formed scorer response carrying a low score. -/
def clearResp : String := "Score: 5\nJustification: fine"

/-- Capabilities whose scorer reports a clearly worded question. -/
def capClear : Capabilities :=
  { complete := fun _ _ _ => clearResp,
    cosSim := fun _ _ => 1,
    crossScore := fun _ _ => 1,
    safeJsonLoad := fun _ => none }

/-- A question record with an id and a non-empty text. -/
def qClear : QuestionRecord :=
  { id := some (Json.num 3), question := some ("What is two plus two?") }

/-- A question record with no id key and a non-empty text. -/
def qNoId : QuestionRecord :=
  { id := none, question := some ("Plain question?") }

/-- A well-formed scorer response carrying a high score. -/
def confusedResp : String := "Score: 90\nJustification: vague"

/-- A fixed rephrasing completion. -/
def candidateResp : String := "A candidate rewording"

/-- Capabilities whose scorer reports a confusing question and whose
bi-encoder similarity is 0, so the gate rejects every candidate. -/
def capReject : Capabilities :=
  { complete := fun model _ _ => if model = SCORE_MODEL then confusedResp else candidateResp,
    cosSim := fun _ _ => 0,
    crossScore := fun _ _ => 0,
    safeJsonLoad := fun _ => none }

/-- A question record driven through all six rejected attempts by
`capReject`. -/
def qReject : QuestionRecord :=
  { id := some (Json.num 1), question := some ("Is this confusing?") }

/-- The result `capReject` produces for `qReject`. -/
def rReject : RemediationResult :=
  { ID := Json.num 1, originalQuestion := "Is this confusing?", score := 90,
    justification := "vague", finalVersion := "Is this confusing?",
    status := "Manual Review Required" }

/-- A scorer response whose score exceeds 100. -/
def overResp : String := "Score: 150\nJustification: overclaim"

/-- Capabilities whose scorer response carries the score 150. -/
def capScore150 : Capabilities :=
  { complete := fun _ _ _ => overResp,
    cosSim := fun _ _ => 0,
    crossScore := fun _ _ => 0,
    safeJsonLoad := fun _ => none }

/-- Capabilities whose extraction response decodes to a bare array holding
one question record. -/
def capBareArray : Capabilities :=
  { complete := fun _ _ _ => "ignored",
    cosSim := fun _ _ => 0,
    crossScore := fun _ _ => 0,
    safeJsonLoad := fun _ => some (Json.arr [Json.obj [("id", Json.num 1), ("question", Json.str ("Q?"))]]) }

/-- A scorer response with neither a parsable `Score:` nor a parsable
`Justification:` field. -/
def noParseResp : String := "I refuse to answer in the requested format."

/-- Capabilities whose scorer response is unparsable. -/
def capNoParse : Capabilities :=
  { complete := fun _ _ _ => noParseResp,
    cosSim := fun _ _ => 0,
    crossScore := fun _ _ => 0,
    safeJsonLoad := fun _ => none }

/-- A question record fed to the unparsable scorer. -/
def qNoParse : QuestionRecord :=
  { id := some (Json.str ("q1")), question := some ("Ambiguous?") }

/-! Helper lemmas shared by the claim theorems. -/

/-- The exact value of the source literal `0.8`. -/
lemma mkRat_8_10 : mkRat 8 10 = (0.8 : ℚ) := by
  rw [Rat.mkRat_eq_div]
  norm_num

/-- The exact value of the source literal `0.75`. -/
lemma mkRat_75_100 : mkRat 75 100 = (0.75 : ℚ) := by
  rw [Rat.mkRat_eq_div]
  norm_num

/-- The exact value of the source literal `0.2`. -/
lemma mkRat_2_10 : mkRat 2 10 = (0.2 : ℚ) := by
  rw [Rat.mkRat_eq_div]
  norm_num

/-- The exact value of the source literal `0.1`. -/
lemma mkRat_1_10 : mkRat 1 10 = (0.1 : ℚ) := by
  rw [Rat.mkRat_eq_div]
  norm_num

/-- The attempt loop never makes more attempts than it has iterations
left. -/
lemma attemptSearch_snd_le (cap : Capabilities) (o : String) (s : ℤ) (j : String) :
    ∀ (a k : ℕ), (attemptSearch cap o s j a k).2 ≤ k := by
  intro a k
  induction k generalizing a with
  | zero => simp [attemptSearch]
  | succ m ih =>
    simp only [attemptSearch]
    split
    · simp
    · simpa using Nat.succ_le_succ (ih (a + 1))

/-- When no candidate passes the gate, the attempt loop runs all its
iterations. -/
lemma attemptSearch_none_snd (cap : Capabilities) (o : String) (s : ℤ) (j : String) :
    ∀ (a k : ℕ), (attemptSearch cap o s j a k).1 = none →
      (attemptSearch cap o s j a k).2 = k := by
  intro a k
  induction k generalizing a with
  | zero => simp [attemptSearch]
  | succ m ih =>
    simp only [attemptSearch]
    split
    · simp
    · intro h
      simpa using ih (a + 1) (by simpa using h)

/-- All three terminal branches of the loop body carry the same `ID`
field. -/
lemma resultOf_ID (cap : Capabilities) (q : QuestionRecord) :
    (resultOf cap q).1.ID = q.id.getD (Json.str ("?")) := by
  simp only [resultOf]
  split
  · split <;> rfl
  · rfl

/-- The loop body when the score is at most the threshold. -/
lemma resultOf_low (cap : Capabilities) (q : QuestionRecord)
    (h : ¬ 20 < (score_question cap (q.question.getD (""))).1) :
    resultOf cap q =
      ({ ID := q.id.getD (Json.str ("?")),
         originalQuestion := q.question.getD (""),
         score := (score_question cap (q.question.getD (""))).1,
         justification := (score_question cap (q.question.getD (""))).2,
         finalVersion := q.question.getD (""),
         status := "Original Kept" }, 0) := by
  simp [resultOf, h]

/-- The loop body when the score exceeds the threshold and some attempt
passes the gate. -/
lemma resultOf_accept (cap : Capabilities) (q : QuestionRecord) (c : String) (m : ℕ)
    (hs : 20 < (score_question cap (q.question.getD (""))).1)
    (hAS : attemptSearch cap (q.question.getD (""))
      (score_question cap (q.question.getD (""))).1
      (score_question cap (q.question.getD (""))).2 0 MAX_ATTEMPTS = (some c, m)) :
    resultOf cap q =
      ({ ID := q.id.getD (Json.str ("?")),
         originalQuestion := q.question.getD (""),
         score := (score_question cap (q.question.getD (""))).1,
         justification := (score_question cap (q.question.getD (""))).2,
         finalVersion := c,
         status := "Rephrased" }, m) := by
  simp [resultOf, hs, hAS]

/-- The loop body when the score exceeds the threshold and every attempt is
rejected. -/
lemma resultOf_exhaust (cap : Capabilities) (q : QuestionRecord) (m : ℕ)
    (hs : 20 < (score_question cap (q.question.getD (""))).1)
    (hAS : attemptSearch cap (q.question.getD (""))
      (score_question cap (q.question.getD (""))).1
      (score_question cap (q.question.getD (""))).2 0 MAX_ATTEMPTS = (none, m)) :
    resultOf cap q =
      ({ ID := q.id.getD (Json.str ("?")),
         originalQuestion := q.question.getD (""),
         score := (score_question cap (q.question.getD (""))).1,
         justification := (score_question cap (q.question.getD (""))).2,
         finalVersion := q.question.getD (""),
         status := "Manual Review Required" }, m) := by
  simp [resultOf, hs, hAS]

/-- C1: for every extracted question whose clarity score is at most 20, the
remediation loop produces a result with status `Original Kept` and final
text equal to the original question text, and no rephrase attempt is
made. -/
theorem low_score_keeps_original (cap : Capabilities) (q : QuestionRecord)
    (hne : q.question.getD ("") ≠ "")
    (hle : (score_question cap (q.question.getD (""))).1 ≤ 20) :
    processQuestion cap q = some
      ({ ID := q.id.getD (Json.str ("?")),
         originalQuestion := q.question.getD (""),
         score := (score_question cap (q.question.getD (""))).1,
         justification := (score_question cap (q.question.getD (""))).2,
         finalVersion := q.question.getD (""),
         status := "Original Kept" }, 0) := by
  have hnot : ¬ 20 < (score_question cap (q.question.getD (""))).1 := not_lt.mpr hle
  simp [processQuestion, resultOf, hne, hnot]

/-- Witness for C1 at a concrete capability record and question: the scorer
answers `Score: 5`, so the original is kept untouched with no attempt. -/
theorem low_score_keeps_original_witness :
    processQuestion capClear qClear = some
      ({ ID := qClear.id.getD (Json.str ("?")),
         originalQuestion := qClear.question.getD (""),
         score := (score_question capClear (qClear.question.getD (""))).1,
         justification := (score_question capClear (qClear.question.getD (""))).2,
         finalVersion := qClear.question.getD (""),
         status := "Original Kept" }, 0) :=
  low_score_keeps_original capClear qClear (by decide) (by decide)

/-- C4: the generation temperature of attempt `k` is `0.2 + k * 0.1`, and
the temperature of attempt `k+1` is strictly greater than that of attempt
`k`. -/
theorem temperature_escalates (k : ℕ) :
    dynamicTemp k = 0.2 + (k : ℚ) * 0.1 ∧ dynamicTemp k < dynamicTemp (k + 1) := by
  constructor
  · rw [dynamicTemp, mkRat_2_10, mkRat_1_10]
  · rw [dynamicTemp, dynamicTemp, mkRat_2_10, mkRat_1_10]
    push_cast
    nlinarith [sq_nonneg (k : ℚ)]

/-- C5 counterexample: on the generative response `Score: 150`, the scorer
returns the score 150, outside the range `[0, 100]` the claim asserts. -/
theorem score_range_counterexample :
    (score_question capScore150 ("Any question")).1 = 150 ∧
    ¬ (score_question capScore150 ("Any question")).1 ≤ 100 := by
  constructor
  · decide
  · decide

/-- C5 (amended): the score returned by the scorer is always a nonnegative
integer — it is parsed from a run of decimal digits, or degrades to 0 —
but the upper bound 100 is not enforced by the code. -/
theorem score_nonneg (cap : Capabilities) (question : String) :
    0 ≤ (score_question cap question).1 := by
  simp only [score_question]
  cases hs : parseScoreField (scoreResponse cap question) with
  | none => simp
  | some s =>
    cases hj : parseJustField (scoreResponse cap question) with
    | none => simp
    | some j =>
      simp only []
      rw [parseScoreField] at hs
      cases hsc : scoreSearch (scoreResponse cap question).data with
      | none => rw [hsc] at hs; simp at hs
      | some n =>
        rw [hsc] at hs
        simp at hs
        omega

/-- C6 counterexample: on the whitespace-only document text `" "`, the
extractor issues a generative request (first component `true`) and, when
the response decodes to a bare array, returns that non-empty list — it
neither short-circuits nor returns an empty sequence. -/
theorem extractor_whitespace_counterexample :
    (get_questions capBareArray (" ")).1 = true ∧
    (get_questions capBareArray (" ")).2 =
      [Json.obj [("id", Json.num 1), ("question", Json.str ("Q?"))]] := by
  constructor
  · rfl
  · rfl

/-- C6 (amended): on the empty document text the extractor returns an empty
sequence without issuing a generative request; a whitespace-only but
non-empty text is not short-circuited — the source guard `if not text`
only catches the empty string, and a request is issued. -/
theorem extractor_empty_text (cap : Capabilities) :
    get_questions cap ("") = (false, []) := rfl

/-- C3: the gate accepts exactly when the stripped, case-folded candidate
differs from the stripped, case-folded original, the bi-encoder cosine
similarity is at least 0.80 and the cross-encoder score is at least 0.75;
and it rejects every candidate identical to its original. -/
theorem gate_accepts_iff (cap : Capabilities) (original candidate : String) :
    (validate cap original candidate = true ↔
      pyNorm original ≠ pyNorm candidate ∧
        (0.8 : ℚ) ≤ cap.cosSim original candidate ∧
        (0.75 : ℚ) ≤ cap.crossScore original candidate) ∧
    (∀ x : String, validate cap x x = false) := by
  constructor
  · rw [validate, mkRat_8_10, mkRat_75_100]
    split_ifs with h1 h2 h3
    · simp [h1]
    · simp [not_le.mpr h2]
    · simp [not_le.mpr h3]
    · simp [h1, not_lt.mp h2, not_lt.mp h3]
  · intro x
    simp [validate]

/-- C9: the remediation loop skips exactly the question records whose text
field is missing or empty, and every other record yields exactly one
result, in the order the extractor produced the questions. -/
theorem loop_skips_exactly_empty (cap : Capabilities) (qs : List QuestionRecord) :
    runLoop cap qs =
      (qs.filter (fun q => !(q.question.getD ("") == ""))).map
        (fun q => (resultOf cap q).1) := by
  induction qs with
  | nil => rfl
  | cons q rest ih =>
    simp only [runLoop] at ih
    by_cases h : q.question.getD ("") = ""
    · have hq : processQuestion cap q = none := by simp [processQuestion, h]
      simp [runLoop, List.filterMap_cons, List.filter_cons, hq, h, ih]
    · have hq : processQuestion cap q = some (resultOf cap q) := by
        simp [processQuestion, h]
      simp [runLoop, List.filterMap_cons, List.filter_cons, hq, h, ih]

/-- C10: the result's `ID` field is the record's `id` value when that key
is present and the string `"?"` when it is absent, and a missing id never
makes the loop skip or fail on a question with non-empty text. -/
theorem result_id_defaulting (cap : Capabilities) (q : QuestionRecord)
    (h : q.question.getD ("") ≠ "") :
    processQuestion cap q = some (resultOf cap q) ∧
    (∀ v, q.id = some v → (resultOf cap q).1.ID = v) ∧
    (q.id = none → (resultOf cap q).1.ID = Json.str ("?")) := by
  refine ⟨by simp [processQuestion, h], fun v hv => ?_, fun hv => ?_⟩
  · rw [resultOf_ID, hv]; rfl
  · rw [resultOf_ID, hv]; rfl

/-- Witness for C10: a record with no id key is processed (not skipped) and
its result carries the placeholder id `"?"`. -/
theorem result_id_defaulting_witness :
    processQuestion capClear qNoId = some (resultOf capClear qNoId) ∧
    (resultOf capClear qNoId).1.ID = Json.str ("?") :=
  ⟨(result_id_defaulting capClear qNoId (by decide)).1,
   (result_id_defaulting capClear qNoId (by decide)).2.2 rfl⟩

/-- C7: the tolerant parser accepts exactly three response shapes — a bare
array; an object with a `questions` or `exam_questions` array (in that
key order); an object whose every value is a string, reinterpreted as
id/question records — and any other parsed value yields the empty
sequence. -/
theorem extractor_shapes (raw : Option Json) :
    (∀ xs, raw = some (Json.arr xs) → questionsFromJson raw = xs) ∧
    (∀ kvs xs, raw = some (Json.obj kvs) → getListVal kvs questionsKey = some xs →
      questionsFromJson raw = xs) ∧
    (∀ kvs xs, raw = some (Json.obj kvs) → getListVal kvs questionsKey = none →
      getListVal kvs examQuestionsKey = some xs → questionsFromJson raw = xs) ∧
    (∀ kvs, raw = some (Json.obj kvs) → getListVal kvs questionsKey = none →
      getListVal kvs examQuestionsKey = none → kvs.all (fun kv => kv.2.isStr) = true →
      questionsFromJson raw =
        kvs.map (fun kv => Json.obj [("id", Json.str kv.1), ("question", kv.2)])) ∧
    ((∀ xs, raw ≠ some (Json.arr xs)) →
      (∀ kvs, raw = some (Json.obj kvs) →
        getListVal kvs questionsKey = none ∧ getListVal kvs examQuestionsKey = none ∧
          kvs.all (fun kv => kv.2.isStr) = false) →
      questionsFromJson raw = []) := by
  refine ⟨?_, ?_, ?_, ?_, ?_⟩
  · rintro xs rfl; rfl
  · rintro kvs xs rfl h; simp [questionsFromJson, h]
  · rintro kvs xs rfl h1 h2; simp [questionsFromJson, h1, h2]
  · rintro kvs rfl h1 h2 h3; simp [questionsFromJson, h1, h2, h3]
  · intro hArr hObj
    match raw with
    | none => rfl
    | some (Json.arr xs) => exact absurd rfl (hArr xs)
    | some (Json.obj kvs) =>
      obtain ⟨h1, h2, h3⟩ := hObj kvs rfl
      simp [questionsFromJson, h1, h2, h3]
    | some Json.null => rfl
    | some (Json.bool b) => rfl
    | some (Json.num n) => rfl
    | some (Json.str s) => rfl

/-- Witness for C7 at a concrete parsed value of the third accepted shape:
an object of plain strings becomes one id/question record per key. -/
theorem extractor_shapes_witness :
    questionsFromJson (some (Json.obj [("a", Json.str ("b"))])) =
      [Json.obj [("id", Json.str ("a")), ("question", Json.str ("b"))]] :=
  (extractor_shapes (some (Json.obj [("a", Json.str ("b"))]))).2.2.2.1
    [("a", Json.str ("b"))] rfl (by rfl) (by rfl) (by rfl)

/-- C2: the number of rephrase attempts (each making exactly one gate
invocation) for a question never exceeds 6, and a result has status
`Manual Review Required` exactly when its score exceeds 20 and all 6
attempts were rejected by the gate, in which case its final text is the
original question text. -/
theorem attempts_bounded_manual_review (cap : Capabilities) (q : QuestionRecord)
    (r : RemediationResult) (n : ℕ) (h : processQuestion cap q = some (r, n)) :
    n ≤ 6 ∧
    (r.status = "Manual Review Required" ↔
      20 < r.score ∧ n = 6 ∧
        (attemptSearch cap r.originalQuestion r.score r.justification 0 MAX_ATTEMPTS).1
          = none) ∧
    (r.status = "Manual Review Required" → r.finalVersion = r.originalQuestion) := by
  rw [processQuestion] at h
  split at h
  · exact absurd h (by simp)
  · rw [Option.some.injEq] at h
    by_cases hsc : 20 < (score_question cap (q.question.getD (""))).1
    · cases hAS : attemptSearch cap (q.question.getD (""))
        (score_question cap (q.question.getD (""))).1
        (score_question cap (q.question.getD (""))).2 0 MAX_ATTEMPTS with
      | mk fst m =>
        cases fst with
        | some c =>
          rw [resultOf_accept cap q c m hsc hAS, Prod.mk.injEq] at h
          obtain ⟨hr, hn⟩ := h
          subst hr
          subst hn
          refine ⟨?_, ?_, ?_⟩
          · have hb := attemptSearch_snd_le cap (q.question.getD (""))
              (score_question cap (q.question.getD (""))).1
              (score_question cap (q.question.getD (""))).2 0 MAX_ATTEMPTS
            rw [hAS] at hb
            exact hb
          · constructor
            · intro hst
              simp at hst
            · rintro ⟨-, -, h3⟩
              have h4 : (attemptSearch cap (q.question.getD (""))
                  (score_question cap (q.question.getD (""))).1
                  (score_question cap (q.question.getD (""))).2 0 MAX_ATTEMPTS).1
                    = none := h3
              rw [hAS] at h4
              simp at h4
          · intro hst
            simp at hst
        | none =>
          rw [resultOf_exhaust cap q m hsc hAS, Prod.mk.injEq] at h
          obtain ⟨hr, hn⟩ := h
          subst hr
          subst hn
          have hm : m = MAX_ATTEMPTS := by
            have hn2 := attemptSearch_none_snd cap (q.question.getD (""))
              (score_question cap (q.question.getD (""))).1
              (score_question cap (q.question.getD (""))).2 0 MAX_ATTEMPTS
              (by rw [hAS])
            rw [hAS] at hn2
            exact hn2
          subst hm
          refine ⟨by decide, ?_, fun _ => rfl⟩
          constructor
          · intro _
            exact ⟨hsc, rfl,
              show (attemptSearch cap (q.question.getD (""))
                (score_question cap (q.question.getD (""))).1
                (score_question cap (q.question.getD (""))).2 0 MAX_ATTEMPTS).1 = none
              by rw [hAS]⟩
          · intro _
            rfl
    · rw [resultOf_low cap q hsc, Prod.mk.injEq] at h
      obtain ⟨hr, hn⟩ := h
      subst hr
      subst hn
      refine ⟨by omega, ?_, ?_⟩
      · constructor
        · intro hst
          simp at hst
        · rintro ⟨h1, -, -⟩
          have h2 : 20 < (score_question cap (q.question.getD (""))).1 := h1
          exact absurd h2 hsc
      · intro hst
        simp at hst

/-- Witness for C2: with a scorer reporting 90 and a gate rejecting every
candidate, the loop makes exactly 6 attempts and ends in
`Manual Review Required` with the original text kept. -/
theorem attempts_bounded_manual_review_witness :
    processQuestion capReject qReject = some (rReject, 6) ∧ 6 ≤ 6 ∧
    rReject.status = "Manual Review Required" ∧
    20 < rReject.score ∧
    (attemptSearch capReject rReject.originalQuestion rReject.score
      rReject.justification 0 MAX_ATTEMPTS).1 = none ∧
    rReject.finalVersion = rReject.originalQuestion :=
  have h : processQuestion capReject qReject = some (rReject, 6) := by rfl
  have h2 := attempts_bounded_manual_review capReject qReject rReject 6 h
  have hMRR : rReject.status = "Manual Review Required" := rfl
  ⟨h, h2.1, hMRR, (h2.2.1.mp hMRR).1, (h2.2.1.mp hMRR).2.2, h2.2.2 hMRR⟩

/-- C8: when the scorer response lacks a parsable `Score:` field or a
parsable `Justification:` field, the scorer returns exactly the degraded
assessment `(0, "Could not parse score.")`, and the loop then treats the
question as clear, keeping the original with status `Original Kept`. -/
theorem malformed_scorer_degrades (cap : Capabilities) (q : QuestionRecord)
    (question : String) (hq : q.question = some question) (hne : question ≠ "")
    (h : parseScoreField (scoreResponse cap question) = none ∨
      parseJustField (scoreResponse cap question) = none) :
    score_question cap question = (0, "Could not parse score.") ∧
    processQuestion cap q = some
      ({ ID := q.id.getD (Json.str ("?")), originalQuestion := question, score := 0,
         justification := "Could not parse score.", finalVersion := question,
         status := "Original Kept" }, 0) := by
  have hsq : score_question cap question = (0, "Could not parse score.") := by
    rcases h with h | h
    · cases hj : parseJustField (scoreResponse cap question) with
      | none => simp [score_question, h, hj]
      | some j => simp [score_question, h, hj]
    · cases hs : parseScoreField (scoreResponse cap question) with
      | none => simp [score_question, h, hs]
      | some s => simp [score_question, h, hs]
  have horig : q.question.getD ("") = question := by rw [hq]; rfl
  have hne2 : ¬ q.question.getD ("") = "" := by rw [horig]; exact hne
  have hlow : ¬ 20 < (score_question cap (q.question.getD (""))).1 := by
    rw [horig, hsq]
    decide
  refine ⟨hsq, ?_⟩
  rw [processQuestion, if_neg hne2, resultOf_low cap q hlow, horig, hsq]

/-- Witness for C8: a free-text scorer response with no `Score:` field
degrades to the zero assessment and the question is kept unchanged. -/
theorem malformed_scorer_degrades_witness :
    score_question capNoParse ("Ambiguous?") = (0, "Could not parse score.") ∧
    processQuestion capNoParse qNoParse = some
      ({ ID := qNoParse.id.getD (Json.str ("?")), originalQuestion := "Ambiguous?",
         score := 0, justification := "Could not parse score.",
         finalVersion := "Ambiguous?", status := "Original Kept" }, 0) :=
  malformed_scorer_degrades capNoParse qNoParse ("Ambiguous?") rfl (by decide)
    (Or.inl (by decide))

end ExamPipeline
